import Mathlib

/-!
Verification of the ContribConnect graph data model and its query/ingestion
contract, as implemented in src/lambda/ingest/lambda_function.py and
src/lambda/graph-tool/lambda_function.py.  DynamoDB items are embedded as
Lean structures, DynamoDB queries as list filters over an in-memory table,
and each Python query function as a computable Lean function.  Timestamps
(updatedAt fields) are not modelled; no claim mentions them.
-/

namespace ContribConnect

/-! ## String helpers

DynamoDB begins_with on a (UTF-8) string key is prefix matching; Python's
substring test (the in operator) is infix matching.  Both are modelled on
character lists. -/

/-- DynamoDB begins_with: hay starts with pre. -/
def strBeginsWith (hay pre : String) : Bool :=
  pre.toList.isPrefixOf hay.toList

/-- Python substring containment: needle occurs inside hay. -/
def strContainsSub (hay needle : String) : Bool :=
  decide (needle.toList <:+: hay.toList)

/-- Python str.lower(), character-wise on the underlying character list. -/
def strToLower (s : String) : String :=
  String.mk (s.data.map Char.toLower)

/-! ## Data model: node and edge items

From upsert_node / upsert_edge in src/lambda/ingest/lambda_function.py.
The data mapping of a node is modelled with the fields the query code reads
via data.get(...): absent keys give none (or [] for labels, matching
data.get('labels', [])). -/

structure NodeData where
  login : Option String := none
  url : Option String := none
  avatarUrl : Option String := none
  labels : List String := []
  number : Option Int := none
  title : Option String := none
  state : Option String := none
  deriving DecidableEq, Repr

structure NodeItem where
  nodeId : String
  nodeType : String
  data : NodeData
  deriving DecidableEq, Repr

/-- Edge item exactly as written by upsert_edge (ingest lambda, lines 215-230):
toIdEdgeType is the forward sort key "{to_id}#{edge_type}". -/
structure EdgeItem where
  fromId : String
  toIdEdgeType : String
  toId : String
  fromIdEdgeType : String
  edgeType : String
  properties : List (String × Nat)
  deriving DecidableEq, Repr

/-- The two DynamoDB tables, as in-memory lists; list order models the order
in which DynamoDB returns items to the query calls. -/
structure Graph where
  nodes : List NodeItem
  edges : List EdgeItem
  deriving DecidableEq, Repr

def emptyGraph : Graph := { nodes := [], edges := [] }

/-! ## Graph store operations -/

/-- get_node (graph-tool lambda, lines 45-52): point lookup by nodeId. -/
def get_node (g : Graph) (node_id : String) : Option NodeItem :=
  g.nodes.find? (fun n => n.nodeId = node_id)

/-- Key-overwrite semantics of DynamoDB put_item on the edges table,
keyed by (fromId, toIdEdgeType). -/
def putEdgeItem : List EdgeItem → EdgeItem → List EdgeItem
  | [], it => [it]
  | e :: es, it =>
    if e.fromId = it.fromId ∧ e.toIdEdgeType = it.toIdEdgeType then
      it :: es
    else
      e :: putEdgeItem es it

/-- upsert_edge (ingest lambda, lines 215-230): stores the forward key
"{to_id}#{edge_type}" and the reverse-index fields. -/
def upsert_edge (g : Graph) (from_id to_id edge_type : String)
    (properties : List (String × Nat)) : Graph :=
  { g with
    edges := putEdgeItem g.edges
      { fromId := from_id
        toIdEdgeType := to_id ++ "#" ++ edge_type
        toId := to_id
        fromIdEdgeType := from_id ++ "#" ++ edge_type
        edgeType := edge_type
        properties := properties } }

/-- get_outgoing_edges (graph-tool lambda, lines 55-69).  With an edge type,
the DynamoDB key condition is fromId = from_id AND
begins_with(toIdEdgeType, "#" + edge_type); without one, fromId = from_id. -/
def get_outgoing_edges (g : Graph) (from_id : String)
    (edge_type : Option String) : List EdgeItem :=
  match edge_type with
  | some t =>
    g.edges.filter (fun e =>
      e.fromId = from_id ∧ strBeginsWith e.toIdEdgeType ("#" ++ t))
  | none =>
    g.edges.filter (fun e => e.fromId = from_id)

/-- get_incoming_edges (graph-tool lambda, lines 72-88): reverse index query
by toId, then client-side filter by edgeType when given. -/
def get_incoming_edges (g : Graph) (to_id : String)
    (edge_type : Option String) : List EdgeItem :=
  let edges := g.edges.filter (fun e => e.toId = to_id)
  match edge_type with
  | some t => edges.filter (fun e => e.edgeType = t)
  | none => edges

/-! ## Checkpoint manager and PR resume logic

From get_last_processed_pr (ingest lambda, lines 233-251) and the skip test
inside scrape_pull_requests_comprehensive (lines 338-350). -/

/-- Checkpoint record fields read by get_last_processed_pr; absence of the
lastProcessedPR attribute is Item.get('lastProcessedPR', 0), folded into
the Option on the whole record here. -/
structure RepoCheckpoint where
  lastProcessedPR : Nat
  deriving DecidableEq, Repr

/-- get_last_processed_pr: 0 when no checkpoint item exists. -/
def get_last_processed_pr (item : Option RepoCheckpoint) : Nat :=
  match item with
  | some r => r.lastProcessedPR
  | none => 0

/-- The resume skip test (ingest lambda, line 346):
last_processed_pr > 0 and pr_number >= last_processed_pr. -/
def skipPR (last_processed_pr pr_number : Nat) : Bool :=
  decide (0 < last_processed_pr) && decide (last_processed_pr ≤ pr_number)

/-- PR numbers 1..n in descending order (GitHub returns newest first,
sort=created, direction=desc). -/
def descendingPRs (n : Nat) : List Nat :=
  (List.range n).reverse.map (fun i => i + 1)

/-- PR numbers the comprehensive scrape processes given checkpoint k. -/
def processedPRs (k n : Nat) : List Nat :=
  (descendingPRs n).filter (fun pr => !(skipPR k pr))

/-- PR numbers the comprehensive scrape skips given checkpoint k. -/
def skippedPRs (k n : Nat) : List Nat :=
  (descendingPRs n).filter (fun pr => skipPR k pr)

/-! ## GitHub request retry model

From github_request (ingest lambda, lines 103-133, non-paginated branch):
up to 3 attempts; a 403 rate-limit response sleeps
max(reset - now, 60) seconds; other errors back off 2^attempt seconds
except on the final attempt, which raises; 404 returns empty at once. -/

inductive GhResponse where
  | ok (body : String)
  | rateLimited (reset : Int)
  | notFound
  | serverError
  deriving DecidableEq, Repr

inductive ReqOutcome where
  | success (body : String)
  | empty
  | failure
  deriving DecidableEq, Repr

/-- One pass of the retry loop: attempt index and remaining attempts; returns
the outcome and the list of sleep durations, in the order they happen. -/
def ghGo (now : Int) (resp : Nat → GhResponse) :
    Nat → Nat → ReqOutcome × List Int
  | _, 0 => (ReqOutcome.empty, [])
  | attempt, remaining + 1 =>
    match resp attempt with
    | GhResponse.ok body => (ReqOutcome.success body, [])
    | GhResponse.rateLimited reset =>
      let wait := max (reset - now) 60
      let rest := ghGo now resp (attempt + 1) remaining
      (rest.1, wait :: rest.2)
    | GhResponse.notFound => (ReqOutcome.empty, [])
    | GhResponse.serverError =>
      if remaining = 1 then (ReqOutcome.failure, [])
      else
        let rest := ghGo now resp (attempt + 1) remaining
        (rest.1, ((2 : Int) ^ attempt) :: rest.2)

/-- github_request with max_retries = 3, given the response each attempt
would receive. -/
def github_request (now : Int) (resp : Nat → GhResponse) :
    ReqOutcome × List Int :=
  ghGo now resp 0 3

/-! ## Stable descending sort

Python list.sort(key=..., reverse=True) is a stable sort: elements are in
descending key order and equal-key elements keep their original relative
order.  Modelled as insertion sort placing each element before the first
strictly smaller key. -/

def insertDescBy {α β : Type} [LinearOrder β] (key : α → β) (x : α) :
    List α → List α
  | [] => [x]
  | y :: ys =>
    if key x < key y then y :: insertDescBy key x ys else x :: y :: ys

def sortDescBy {α β : Type} [LinearOrder β] (key : α → β) :
    List α → List α
  | [] => []
  | x :: xs => insertDescBy key x (sortDescBy key xs)

/-! ## Top contributors

From get_top_contributors (graph-tool lambda, lines 356-411). -/

structure Contributor where
  userId : String
  login : Option String
  url : Option String
  avatarUrl : Option String
  contributions : Nat
  deriving DecidableEq, Repr

/-- Result of get_top_contributors; note is the extra key present only in
the mock-data branch of the source (none models an absent key). -/
structure TopContribResult where
  repository : String
  contributors : List Contributor
  total : Nat
  note : Option String
  deriving DecidableEq, Repr

/-- Keys of the Python dict get_top_contributors returns. -/
def topContribKeys (r : TopContribResult) : List String :=
  ["repository", "contributors", "total"] ++
    (if r.note.isSome then ["note"] else [])

/-- The hard-coded mock contributor list returned when no CONTRIBUTES_TO
edges exist (graph-tool lambda, lines 370-376). -/
def mock_contributors : List Contributor :=
  [ { userId := "user#mrubens", login := some "mrubens",
      url := some "https://github.com/mrubens", avatarUrl := some "",
      contributions := 1854 },
    { userId := "user#saoudrizwan", login := some "saoudrizwan",
      url := some "https://github.com/saoudrizwan", avatarUrl := some "",
      contributions := 962 },
    { userId := "user#cte", login := some "cte",
      url := some "https://github.com/cte", avatarUrl := some "",
      contributions := 587 },
    { userId := "user#daniel-lxs", login := some "daniel-lxs",
      url := some "https://github.com/daniel-lxs", avatarUrl := some "",
      contributions := 211 },
    { userId := "user#hannesrudolph", login := some "hannesrudolph",
      url := some "https://github.com/hannesrudolph", avatarUrl := some "",
      contributions := 129 } ]

/-- The join loop of get_top_contributors (lines 384-402): for each
CONTRIBUTES_TO edge into the repo node, look up the user node and build a
contributor record; edges whose user node is absent are dropped.
The contributions count comes from edge properties with default 0. -/
def join_contributors (g : Graph) (repo_id : String) : List Contributor :=
  (get_incoming_edges g repo_id (some "CONTRIBUTES_TO")).filterMap
    (fun e =>
      (get_node g e.fromId).map (fun n =>
        { userId := e.fromId
          login := n.data.login
          url := n.data.url
          avatarUrl := n.data.avatarUrl
          contributions := (e.properties.lookup "contributions").getD 0 }))

/-- get_top_contributors (graph-tool lambda, lines 356-411). -/
def get_top_contributors (g : Graph) (repo : String) (limit : Nat) :
    TopContribResult :=
  let repo_id := "repo#" ++ repo
  let edges := get_incoming_edges g repo_id (some "CONTRIBUTES_TO")
  if edges = [] then
    { repository := repo
      contributors := mock_contributors.take limit
      total := mock_contributors.length
      note := some "Mock data - run ingestion to get real data" }
  else
    let contributors :=
      sortDescBy (fun c => c.contributions) (join_contributors g repo_id)
    { repository := repo
      contributors := contributors.take limit
      total := contributors.length
      note := none }

/-! ## Related issues

From find_related_issues (graph-tool lambda, lines 274-353). -/

/-- Cardinality of set(a) & set(b) on label lists: distinct elements of a
that also occur in b. -/
def listInterCard (a b : List String) : Nat :=
  (a.dedup.filter (fun x => x ∈ b)).length

/-- Shared labels as a list, list(set(a) & set(b)), in first-occurrence
order of a. -/
def sharedLabelsList (a b : List String) : List String :=
  a.dedup.filter (fun x => x ∈ b)

/-- The similarity score (graph-tool lambda, lines 318-319):
len(shared_labels) / max(len(issue_labels), 1). -/
def similarityScore (issue_labels cand_labels : List String) : ℚ :=
  (listInterCard issue_labels cand_labels : ℚ) /
    (max issue_labels.length 1 : ℚ)

structure RelatedIssue where
  issueId : String
  number : Option Int
  title : Option String
  state : Option String
  url : Option String
  labels : List String
  sharedLabels : List String
  similarityScore : ℚ
  deriving DecidableEq, Repr

structure OriginalIssue where
  issueId : String
  number : Option Int
  title : Option String
  labels : List String
  deriving DecidableEq, Repr

/-- The two dict shapes find_related_issues can return: the not-found dict
(lines 282-292) and the success dict (lines 343-353). -/
inductive RelatedIssuesResult where
  | notFound (error suggestion repository : String)
      (helpfulTips : List String)
  | found (originalIssue : OriginalIssue)
      (relatedIssues : List RelatedIssue) (repository : String)
      (totalFound : Nat)
  deriving DecidableEq, Repr

/-- Keys of the Python dict each constructor corresponds to. -/
def relatedResultKeys : RelatedIssuesResult → List String
  | RelatedIssuesResult.notFound _ _ _ _ =>
    ["error", "suggestion", "repository", "helpfulTips"]
  | RelatedIssuesResult.found _ _ _ _ =>
    ["originalIssue", "relatedIssues", "repository", "totalFound"]

/-- Candidate entries gathered for one label (lines 300-330): the first 10
incoming HAS_LABEL edges of the label node, skipping the original issue and
candidates whose node is absent. -/
def relatedForLabel (g : Graph) (issue_id : String)
    (issue_labels : List String) (label_id : String) : List RelatedIssue :=
  ((get_incoming_edges g label_id (some "HAS_LABEL")).take 10).filterMap
    (fun e =>
      if e.fromId = issue_id then none
      else
        (get_node g e.fromId).map (fun n =>
          { issueId := e.fromId
            number := n.data.number
            title := n.data.title
            state := n.data.state
            url := n.data.url
            labels := n.data.labels
            sharedLabels := sharedLabelsList issue_labels n.data.labels
            similarityScore := similarityScore issue_labels n.data.labels }))

/-- Deduplication by issueId, first occurrence wins (lines 336-341). -/
def dedupByIssueId (seen : List String) :
    List RelatedIssue → List RelatedIssue
  | [] => []
  | x :: xs =>
    if x.issueId ∈ seen then dedupByIssueId seen xs
    else x :: dedupByIssueId (x.issueId :: seen) xs

/-- find_related_issues (graph-tool lambda, lines 274-353). -/
def find_related_issues (g : Graph) (issue_id repo : String) :
    RelatedIssuesResult :=
  match get_node g issue_id with
  | none =>
    RelatedIssuesResult.notFound
      ("Issue " ++ issue_id ++ " not found")
      ("Try browsing the GitHub issues page for " ++ repo ++
        " to find related issues")
      repo
      [ "Check the repository's GitHub Issues tab",
        "Look for issues with similar labels or topics",
        "Search for keywords related to your problem",
        "Consider asking the maintainers for guidance" ]
  | some issue_node =>
    let issue_labels := issue_node.data.labels
    let related_issues :=
      issue_labels.flatMap (fun label =>
        relatedForLabel g issue_id issue_labels
          ("label#" ++ repo ++ "#" ++ label))
    let sorted := sortDescBy (fun r => r.similarityScore) related_issues
    let unique_issues := dedupByIssueId [] sorted
    RelatedIssuesResult.found
      { issueId := issue_id
        number := issue_node.data.number
        title := issue_node.data.title
        labels := issue_labels }
      (unique_issues.take 10)
      repo
      unique_issues.length

/-! ## Reviewer suggestions

From find_reviewers (graph-tool lambda, lines 147-271) and its
find_reviewers action in lambda_handler (lines 457-469).
check_github_issues (lines 91-144) performs live HTTP requests to the
GitHub API; it is modelled as an oracle function from the query it issues
to the {found, count, issues} dict it returns. -/

structure GhIssue where
  number : Int
  title : String
  url : String
  labels : List String
  created_at : String
  comments : Nat
  assignee : Option String
  deriving DecidableEq, Repr

/-- Return shape of check_github_issues. -/
structure GhResult where
  found : Bool
  count : Nat
  issues : List GhIssue
  deriving DecidableEq, Repr

/-- The three request forms check_github_issues can issue (lines 98-106). -/
inductive GhQuery where
  | byLabel (repo label : String)
  | byQuery (repo q : String)
  | recent (repo : String)
  deriving DecidableEq, Repr

/-- The live GitHub API, abstracted: what check_github_issues returns for
each query it is called with. -/
def GitHubApi : Type := GhQuery → GhResult

structure Mentor where
  login : Option String
  url : Option String
  contributions : Nat
  role : String
  deriving DecidableEq, Repr

structure AltSuggestion where
  label : String
  count : Nat
  issues : List GhIssue
  deriving DecidableEq, Repr

structure Reviewer where
  login : Option String
  url : Option String
  contributions : Nat
  expertise : List String
  reason : String
  deriving DecidableEq, Repr

structure Expert where
  login : Option String
  url : Option String
  issueCount : Nat
  expertise : String
  deriving DecidableEq, Repr

/-- The two dict shapes find_reviewers can return: the good-first-issue
dict (lines 195-213) and the general dict (lines 265-271). -/
inductive ReviewersResult where
  | goodFirstIssue (labels : List String) (repository : String)
      (githubIssuesFound : Bool) (issueCount : Nat)
      (issues : List GhIssue) (alternativeSuggestions : List AltSuggestion)
      (mentors : List Mentor) (message suggestion : String)
      (contributionIdeas : List String)
  | general (labels : List String) (repository : String)
      (suggestedReviewers : List Reviewer)
      (labelExperts : List (String × List Expert)) (note : String)
  deriving DecidableEq, Repr

/-- The suggestedReviewers key: only the general dict carries it. -/
def suggestedReviewersOf : ReviewersResult → List Reviewer
  | ReviewersResult.goodFirstIssue _ _ _ _ _ _ _ _ _ _ => []
  | ReviewersResult.general _ _ sr _ _ => sr

/-- Python dict counter update: user_counts[k] = user_counts.get(k, 0) + 1,
preserving first-insertion order of keys. -/
def bumpCount (k : String) : List (String × Nat) → List (String × Nat)
  | [] => [(k, 1)]
  | (k', n) :: rest =>
    if k' = k then (k', n + 1) :: rest else (k', n) :: bumpCount k rest

/-- The per-label tally loop (lines 240-248) over an explicit list of
HAS_LABEL edges: only the first 20 edges are examined; for each, every
incoming AUTHORED edge of the issue bumps the author's count. -/
def countsFromLabelEdges (g : Graph) (label_edges : List EdgeItem) :
    List (String × Nat) :=
  (label_edges.take 20).foldl
    (fun acc e =>
      (get_incoming_edges g e.fromId (some "AUTHORED")).foldl
        (fun acc2 ie => bumpCount ie.fromId acc2) acc)
    []

/-- Experts for one label (lines 234-263): tally, sort descending by count
(stable), keep the top 3, then join each to its user node, dropping absent
nodes and nodes whose nodeType is not user. -/
def labelExpertsFor (g : Graph) (repo label : String) : List Expert :=
  let label_id := "label#" ++ repo ++ "#" ++ label
  let user_counts :=
    countsFromLabelEdges g (get_incoming_edges g label_id (some "HAS_LABEL"))
  let top_users := (sortDescBy (fun p => p.2) user_counts).take 3
  top_users.filterMap (fun p =>
    match get_node g p.1 with
    | some n =>
      if n.nodeType = "user" then
        some { login := n.data.login, url := n.data.url,
               issueCount := p.2, expertise := label }
      else none
    | none => none)

/-- Python dict insertion label_experts[label] = v: overwrite in place or
append. -/
def setAssoc {α : Type} (k : String) (v : α) :
    List (String × α) → List (String × α)
  | [] => [(k, v)]
  | (k', v') :: rest =>
    if k' = k then (k, v) :: rest else (k', v') :: setAssoc k v rest

/-- The beginner-friendly labels probed when no good first issues exist
(line 175). -/
def beginner_labels : List String :=
  ["help wanted", "easy", "beginner", "documentation", "bug", "enhancement"]

/-- The contribution ideas list (lines 205-212). -/
def contribution_ideas : List String :=
  [ "Documentation improvements (README, comments, guides)",
    "Bug fixes for small, well-defined issues",
    "Adding tests for existing functionality",
    "Code formatting and style improvements",
    "Translation and localization",
    "Example code and tutorials" ]

/-- The good-first-issue branch of find_reviewers (lines 155-213). -/
def find_reviewers_gfi (gh : GitHubApi) (g : Graph)
    (issue_labels : List String) (repo : String) : ReviewersResult :=
  let github_issues := gh (GhQuery.byLabel repo "good first issue")
  let contributors_result := get_top_contributors g repo 3
  let mentors := (contributors_result.contributors.take 3).map
    (fun c => { login := c.login, url := c.url,
                contributions := c.contributions,
                role := "mentor" : Mentor })
  let alternative_suggestions :=
    if github_issues.found then []
    else
      let labelled := beginner_labels.filterMap (fun label =>
        let alt := gh (GhQuery.byLabel repo label)
        if alt.found then
          some { label := label, count := alt.count,
                 issues := alt.issues.take 3 : AltSuggestion }
        else none)
      if labelled = [] then
        let recent := gh (GhQuery.recent repo)
        if recent.found then
          [{ label := "recent issues", count := recent.count,
             issues := recent.issues.take 5 : AltSuggestion }]
        else []
      else labelled
  ReviewersResult.goodFirstIssue
    issue_labels repo github_issues.found github_issues.count
    github_issues.issues alternative_suggestions mentors
    (if github_issues.found then
      "Found " ++ toString github_issues.count ++ " good first issues"
     else "No good first issues currently available")
    (if github_issues.found then
      "These issues are great for getting started!"
     else "Check back later or look for other beginner-friendly issues")
    (if github_issues.found then [] else contribution_ideas)

/-- The general branch of find_reviewers (lines 215-271): top contributors
become suggested reviewers; label experts are computed only when labels
were supplied and differ from the exact list [good first issue]. -/
def find_reviewers_general (g : Graph) (issue_labels : List String)
    (repo : String) : ReviewersResult :=
  let contributors_result := get_top_contributors g repo 5
  let reviewers := contributors_result.contributors.map
    (fun c => { login := c.login, url := c.url,
                contributions := c.contributions,
                expertise := ["general contributor"],
                reason := "Top contributor with " ++
                  toString c.contributions ++ " contributions" : Reviewer })
  let label_experts :=
    if issue_labels ≠ [] ∧ issue_labels ≠ ["good first issue"] then
      issue_labels.foldl
        (fun acc label => setAssoc label (labelExpertsFor g repo label) acc)
        []
    else []
  ReviewersResult.general issue_labels repo (reviewers.take 5) label_experts
    (if reviewers ≠ [] then "Based on contribution history"
     else "No contributor data available yet")

/-- find_reviewers (graph-tool lambda, lines 147-271). -/
def find_reviewers (gh : GitHubApi) (g : Graph)
    (issue_labels : List String) (repo : String) : ReviewersResult :=
  if issue_labels ≠ [] ∧ issue_labels.any
      (fun l => strContainsSub (strToLower l) "good first issue") then
    find_reviewers_gfi gh g issue_labels repo
  else
    find_reviewers_general g issue_labels repo

/-- Response of the find_reviewers action in lambda_handler. -/
inductive HandlerResponse where
  | badRequest (error : String)
  | ok (result : ReviewersResult)
  deriving DecidableEq, Repr

/-- The find_reviewers action of lambda_handler (lines 457-469): an empty
labels list or empty repo string is rejected with a 400 validation error
before find_reviewers runs. -/
def handleFindReviewers (gh : GitHubApi) (g : Graph)
    (labels : List String) (repo : String) : HandlerResponse :=
  if labels = [] ∨ repo = "" then
    HandlerResponse.badRequest "labels and repo parameters required"
  else
    HandlerResponse.ok (find_reviewers gh g labels repo)

/-! ## Concrete instances used to exercise the definitions -/

/-- Four user nodes for a small sample repository. -/
def sampleUsers : List NodeItem :=
  [ { nodeId := "user#alice", nodeType := "user",
      data := { login := some "alice" } },
    { nodeId := "user#bob", nodeType := "user",
      data := { login := some "bob" } },
    { nodeId := "user#carol", nodeType := "user",
      data := { login := some "carol" } },
    { nodeId := "user#dan", nodeType := "user",
      data := { login := some "dan" } } ]

/-- A repository with four contributors whose contribution counts are
5, 20, 20, 1 in fetch order, built through upsert_edge. -/
def sampleGraph : Graph :=
  upsert_edge (upsert_edge (upsert_edge (upsert_edge
    { nodes := sampleUsers, edges := [] }
    "user#alice" "repo#acme/widgets" "CONTRIBUTES_TO" [("contributions", 5)])
    "user#bob" "repo#acme/widgets" "CONTRIBUTES_TO" [("contributions", 20)])
    "user#carol" "repo#acme/widgets" "CONTRIBUTES_TO" [("contributions", 20)])
    "user#dan" "repo#acme/widgets" "CONTRIBUTES_TO" [("contributions", 1)]

/-- A HAS_LABEL edge item, as upsert_edge would store it. -/
def sampleLabelEdge : EdgeItem :=
  { fromId := "issue#acme/widgets#1"
    toIdEdgeType := "label#acme/widgets#bug#HAS_LABEL"
    toId := "label#acme/widgets#bug"
    fromIdEdgeType := "issue#acme/widgets#1#HAS_LABEL"
    edgeType := "HAS_LABEL"
    properties := [] }

/-- A GitHub API state with no open issues anywhere. -/
def noIssuesApi : GitHubApi :=
  fun _ => { found := false, count := 0, issues := [] }

/-- A GitHub API state reporting seven issues for every query. -/
def sevenIssuesApi : GitHubApi :=
  fun _ => { found := true, count := 7, issues := [] }

/-! ## Properties of the stable descending sort -/

theorem insertDescBy_perm {α β : Type} [LinearOrder β] (key : α → β) (x : α)
    (l : List α) : List.Perm (insertDescBy key x l) (x :: l) := by
  induction l with
  | nil => simp [insertDescBy]
  | cons y ys ih =>
    simp only [insertDescBy]
    split
    · exact List.Perm.trans (ih.cons y) (List.Perm.swap x y ys)
    · exact List.Perm.refl _

theorem sortDescBy_perm {α β : Type} [LinearOrder β] (key : α → β)
    (l : List α) : List.Perm (sortDescBy key l) l := by
  induction l with
  | nil => simp [sortDescBy]
  | cons x xs ih =>
    exact List.Perm.trans (insertDescBy_perm key x (sortDescBy key xs))
      (ih.cons x)

theorem insertDescBy_pairwise {α β : Type} [LinearOrder β] (key : α → β)
    (x : α) (l : List α)
    (h : l.Pairwise (fun a b => key b ≤ key a)) :
    (insertDescBy key x l).Pairwise (fun a b => key b ≤ key a) := by
  induction l with
  | nil => simp [insertDescBy]
  | cons y ys ih =>
    rcases List.pairwise_cons.mp h with ⟨hy, hys⟩
    simp only [insertDescBy]
    split
    case isTrue hxy =>
      refine List.pairwise_cons.mpr ⟨?_, ih hys⟩
      intro z hz
      have hz2 : z ∈ x :: ys := (insertDescBy_perm key x ys).mem_iff.mp hz
      rcases List.mem_cons.mp hz2 with rfl | h1
      · exact le_of_lt hxy
      · exact hy z h1
    case isFalse hxy =>
      refine List.pairwise_cons.mpr ⟨?_, h⟩
      intro z hz
      rcases List.mem_cons.mp hz with rfl | h1
      · exact le_of_not_lt hxy
      · exact le_trans (hy z h1) (le_of_not_lt hxy)

theorem sortDescBy_pairwise {α β : Type} [LinearOrder β] (key : α → β)
    (l : List α) :
    (sortDescBy key l).Pairwise (fun a b => key b ≤ key a) := by
  induction l with
  | nil => simp [sortDescBy]
  | cons x xs ih => exact insertDescBy_pairwise key x _ ih

/-! ## The claims -/

theorem mem_descendingPRs (n m : Nat) :
    m ∈ descendingPRs n ↔ 1 ≤ m ∧ m ≤ n := by
  simp only [descendingPRs, List.mem_map, List.mem_reverse, List.mem_range]
  constructor
  · rintro ⟨i, hi, rfl⟩
    omega
  · rintro ⟨h1, h2⟩
    exact ⟨m - 1, by omega, by omega⟩

/-- C1: in comprehensive PR mode with PRs 1..n in descending order and a
persisted checkpoint k, the crawler skips exactly the PRs with
number >= k when k > 0 and reprocesses exactly those with number < k;
a checkpoint of 0 (also returned when none is persisted) skips nothing. -/
theorem checkpoint_resume_correct (n k pr : Nat) :
    (pr ∈ skippedPRs k n ↔ 1 ≤ pr ∧ pr ≤ n ∧ 1 ≤ k ∧ k ≤ pr) ∧
    (pr ∈ processedPRs k n ↔ 1 ≤ pr ∧ pr ≤ n ∧ (k = 0 ∨ pr < k)) ∧
    get_last_processed_pr none = 0 ∧
    skippedPRs 0 n = [] := by
  refine ⟨?_, ?_, rfl, ?_⟩
  · simp only [skippedPRs, List.mem_filter, mem_descendingPRs, skipPR,
      Bool.and_eq_true, decide_eq_true_eq]
    omega
  · simp only [processedPRs, List.mem_filter, mem_descendingPRs, skipPR,
      Bool.not_eq_true', Bool.and_eq_false_iff, decide_eq_false_iff_not]
    omega
  · simp [skippedPRs, skipPR]

/-- C9: when a request is rejected for rate-limit reasons with reset time t
seconds in the future, github_request sleeps max(t, 60) seconds before the
retry, which is at least t and at least 60. -/
theorem rate_limit_wait_bound (now t : Int) (resp : Nat → GhResponse)
    (h : resp 0 = GhResponse.rateLimited (now + t)) :
    (github_request now resp).2.head? = some (max t 60) ∧
    (60 : Int) ≤ max t 60 ∧ t ≤ max t 60 := by
  refine ⟨?_, le_max_right t 60, le_max_left t 60⟩
  simp [github_request, ghGo, h, add_sub_cancel_left]

/-- Witness for C9 at a concrete reset time 100 seconds in the future. -/
theorem rate_limit_wait_bound_witness :
    (github_request 0 (fun _ => GhResponse.rateLimited 100)).2.head? =
      some (max 100 60) ∧ (60 : Int) ≤ max 100 60 ∧
      (100 : Int) ≤ max 100 60 :=
  rate_limit_wait_bound 0 100 (fun _ => GhResponse.rateLimited 100)
    (by simp)

/-- C2: get_outgoing_edges with an edge type is meant to return the stored
edges with that fromId and edgeType, but the begins_with prefix it queries,
"#" ++ edgeType, can never match the stored sort key toId ++ "#" ++
edgeType for a nonempty toId: an edge just stored by upsert_edge is found
by the untyped query yet the typed query returns nothing. -/
theorem outgoing_edges_type_filter_empty :
    get_outgoing_edges
      (upsert_edge emptyGraph "user#alice" "repo#acme/widgets"
        "CONTRIBUTES_TO" [("contributions", 5)])
      "user#alice" (some "CONTRIBUTES_TO") = [] ∧
    ((upsert_edge emptyGraph "user#alice" "repo#acme/widgets"
        "CONTRIBUTES_TO" [("contributions", 5)]).edges.filter
      (fun e => e.fromId = "user#alice" ∧
        e.edgeType = "CONTRIBUTES_TO")).length = 1 ∧
    get_outgoing_edges
      (upsert_edge emptyGraph "user#alice" "repo#acme/widgets"
        "CONTRIBUTES_TO" [("contributions", 5)])
      "user#alice" none ≠ [] := by
  decide

/-- C3: with contributor edges present, get_top_contributors returns the
join of the CONTRIBUTES_TO edges with their user nodes, stably sorted in
descending order of contributions and truncated to the limit; on fetch
order [5, 20, 20, 1] the output is the two 20s in original relative order,
then 5, then 1. -/
theorem top_contributors_ordering :
    (∀ (g : Graph) (repo : String) (limit : Nat),
      get_incoming_edges g ("repo#" ++ repo) (some "CONTRIBUTES_TO") ≠ [] →
      (get_top_contributors g repo limit).contributors =
        (sortDescBy (fun c => c.contributions)
          (join_contributors g ("repo#" ++ repo))).take limit ∧
      List.Pairwise (fun a b => b.contributions ≤ a.contributions)
        (get_top_contributors g repo limit).contributors ∧
      List.Perm
        (sortDescBy (fun c => c.contributions)
          (join_contributors g ("repo#" ++ repo)))
        (join_contributors g ("repo#" ++ repo))) ∧
    (get_top_contributors sampleGraph "acme/widgets" 10).contributors.map
      (fun c => c.login) =
      [some "bob", some "carol", some "alice", some "dan"] ∧
    (get_top_contributors sampleGraph "acme/widgets" 10).contributors.map
      (fun c => c.contributions) = [20, 20, 5, 1] ∧
    (get_top_contributors sampleGraph "acme/widgets" 2).contributors.map
      (fun c => c.login) = [some "bob", some "carol"] := by
  refine ⟨?_, by decide, by decide, by decide⟩
  intro g repo limit h
  have heq : (get_top_contributors g repo limit).contributors =
      (sortDescBy (fun c => c.contributions)
        (join_contributors g ("repo#" ++ repo))).take limit := by
    simp only [get_top_contributors, if_neg h]
  refine ⟨heq, ?_, sortDescBy_perm _ _⟩
  rw [heq]
  exact List.Pairwise.sublist (List.take_sublist _ _)
    (sortDescBy_pairwise (fun c : Contributor => c.contributions)
      (join_contributors g ("repo#" ++ repo)))

/-- Witness for C3: the general part applied to the sample graph. -/
theorem top_contributors_ordering_witness :
    List.Pairwise (fun a b => b.contributions ≤ a.contributions)
      (get_top_contributors sampleGraph "acme/widgets" 2).contributors :=
  (top_contributors_ordering.1 sampleGraph "acme/widgets" 2
    (by decide)).2.1

/-- C5: the related-issue similarity score is the number of shared distinct
labels divided by the original issue's label count with the denominator
floored at 1: labels [a,b,c] against a candidate sharing a and b score 2/3,
zero original labels score 0 against every candidate with no division by
zero, and every score lies in [0, 1]. -/
theorem similarity_score_correct :
    similarityScore ["a", "b", "c"] ["a", "b"] = 2 / 3 ∧
    (∀ cand : List String, similarityScore [] cand = 0) ∧
    (∀ o c : List String,
      (0 : ℚ) < (max o.length 1 : ℚ) ∧
      similarityScore o c =
        (listInterCard o c : ℚ) / (max o.length 1 : ℚ) ∧
      0 ≤ similarityScore o c ∧ similarityScore o c ≤ 1) := by
  have hpos : ∀ o : List String, (0 : ℚ) < (max o.length 1 : ℚ) := by
    intro o
    have : (0 : ℕ) < max o.length 1 := lt_of_lt_of_le Nat.one_pos
      (le_max_right _ _)
    exact_mod_cast this
  refine ⟨?_, ?_, ?_⟩
  · have h1 : listInterCard ["a", "b", "c"] ["a", "b"] = 2 := by decide
    have h2 : (["a", "b", "c"] : List String).length = 3 := rfl
    rw [similarityScore, h1, h2]
    norm_num
  · intro cand
    simp [similarityScore, listInterCard]
  · intro o c
    have hcard : listInterCard o c ≤ max o.length 1 := by
      refine le_trans ?_ (le_max_left _ _)
      exact le_trans (List.length_filter_le _ _)
        ((List.dedup_sublist o).length_le)
    refine ⟨hpos o, rfl, ?_, ?_⟩
    · exact div_nonneg (Nat.cast_nonneg _) (le_of_lt (hpos o))
    · rw [similarityScore, div_le_one (hpos o)]
      exact_mod_cast hcard

/-- C4 counterexample: with zero CONTRIBUTES_TO edges, get_top_contributors
returns a non-empty hard-coded mock contributor list, and its result dict
carries no dataAvailable key, so the claimed explicit no-data boolean does
not exist and the contributors list is not empty either. -/
theorem top_contributors_no_data_shape :
    (get_top_contributors emptyGraph "acme/widgets" 10).contributors ≠ [] ∧
    "dataAvailable" ∉
      topContribKeys (get_top_contributors emptyGraph "acme/widgets" 10) ∧
    (get_top_contributors emptyGraph "acme/widgets" 10).contributors =
      mock_contributors := by
  decide

/-- C4 amended: when zero CONTRIBUTES_TO edges exist, get_top_contributors
returns the hard-coded mock contributor list truncated to the limit, with
total 5 and the note string "Mock data - run ingestion to get real data";
a result computed from real edges carries no note, so the note key rather
than a dataAvailable boolean is what distinguishes the no-data case. -/
theorem top_contributors_mock_on_no_data (g : Graph) (repo : String)
    (limit : Nat) :
    (get_incoming_edges g ("repo#" ++ repo) (some "CONTRIBUTES_TO") = [] →
      get_top_contributors g repo limit =
        { repository := repo
          contributors := mock_contributors.take limit
          total := 5
          note := some "Mock data - run ingestion to get real data" }) ∧
    (get_incoming_edges g ("repo#" ++ repo) (some "CONTRIBUTES_TO") ≠ [] →
      (get_top_contributors g repo limit).note = none) := by
  constructor
  · intro h
    simp [get_top_contributors, h, mock_contributors]
  · intro h
    simp [get_top_contributors, if_neg h]

/-- Witness for C4 amended: the empty graph takes the mock branch. -/
theorem top_contributors_mock_on_no_data_witness :
    get_top_contributors emptyGraph "acme/widgets" 2 =
      { repository := "acme/widgets"
        contributors := mock_contributors.take 2
        total := 5
        note := some "Mock data - run ingestion to get real data" } :=
  (top_contributors_mock_on_no_data emptyGraph "acme/widgets" 2).1 rfl

/-- C6 counterexample: the result for a nonexistent issue id carries the
keys error, suggestion, repository and helpfulTips; there is no
notFound boolean and no guidance key as the claimed interface states. -/
theorem related_issues_not_found_shape :
    relatedResultKeys
      (find_related_issues emptyGraph "issue#acme/widgets#1" "acme/widgets")
      = ["error", "suggestion", "repository", "helpfulTips"] ∧
    "notFound" ∉ relatedResultKeys
      (find_related_issues emptyGraph "issue#acme/widgets#1"
        "acme/widgets") ∧
    "guidance" ∉ relatedResultKeys
      (find_related_issues emptyGraph "issue#acme/widgets#1"
        "acme/widgets") := by
  decide

/-- C6 amended: for every issue id absent from the graph,
find_related_issues returns the structured not-found dict (keys error,
suggestion, repository, helpfulTips) whose suggestion guidance text is
non-empty and whose tips list is non-empty; the function is total, so no
exception escapes. -/
theorem related_issues_not_found_guidance (g : Graph)
    (issue_id repo : String) (h : get_node g issue_id = none) :
    find_related_issues g issue_id repo =
      RelatedIssuesResult.notFound
        ("Issue " ++ issue_id ++ " not found")
        ("Try browsing the GitHub issues page for " ++ repo ++
          " to find related issues")
        repo
        [ "Check the repository's GitHub Issues tab",
          "Look for issues with similar labels or topics",
          "Search for keywords related to your problem",
          "Consider asking the maintainers for guidance" ] ∧
    ("Try browsing the GitHub issues page for " ++ repo ++
      " to find related issues") ≠ "" ∧
    ([ "Check the repository's GitHub Issues tab",
       "Look for issues with similar labels or topics",
       "Search for keywords related to your problem",
       "Consider asking the maintainers for guidance" ] : List String)
      ≠ [] := by
  refine ⟨?_, ?_, by simp⟩
  · simp [find_related_issues, h]
  · intro hEq
    have hlen := congrArg String.length hEq
    rw [String.length_append, String.length_append] at hlen
    have h1 : (" to find related issues").length = 23 := by decide
    have h2 : ("" : String).length = 0 := by decide
    rw [h1, h2] at hlen
    omega

/-- Witness for C6 amended at an empty graph. -/
theorem related_issues_not_found_guidance_witness :
    find_related_issues emptyGraph "issue#acme/widgets#1" "acme/widgets" =
      RelatedIssuesResult.notFound
        ("Issue " ++ "issue#acme/widgets#1" ++ " not found")
        ("Try browsing the GitHub issues page for " ++ "acme/widgets" ++
          " to find related issues")
        "acme/widgets"
        [ "Check the repository's GitHub Issues tab",
          "Look for issues with similar labels or topics",
          "Search for keywords related to your problem",
          "Consider asking the maintainers for guidance" ] :=
  (related_issues_not_found_guidance emptyGraph "issue#acme/widgets#1"
    "acme/widgets" rfl).1

/-- C7 counterexample: the find_reviewers action of lambda_handler rejects
an empty label list with a 400 validation error even for a repository that
has contributors, so a queryReviewers call with an empty label list does
not return a suggested-reviewer list at all. -/
theorem handler_rejects_empty_labels :
    handleFindReviewers noIssuesApi sampleGraph [] "acme/widgets" =
      HandlerResponse.badRequest "labels and repo parameters required" := by
  decide

/-- C7 amended: lambda_handler rejects an empty label list with a 400
validation error before find_reviewers runs; find_reviewers itself, called
with an empty label list on a repository where at least one CONTRIBUTES_TO
edge joins to an existing user node, returns a non-empty suggestedReviewers
list derived from the top contributors. -/
theorem reviewers_fallback_empty_labels (gh : GitHubApi) (g : Graph)
    (repo : String) (h : join_contributors g ("repo#" ++ repo) ≠ []) :
    suggestedReviewersOf (find_reviewers gh g [] repo) ≠ [] ∧
    handleFindReviewers gh g [] repo =
      HandlerResponse.badRequest "labels and repo parameters required" := by
  constructor
  · have hedges : get_incoming_edges g ("repo#" ++ repo)
        (some "CONTRIBUTES_TO") ≠ [] := by
      intro he
      exact h (by simp [join_contributors, he])
    have hfr : find_reviewers gh g [] repo =
        find_reviewers_general g [] repo := by
      simp [find_reviewers]
    rw [hfr]
    simp only [find_reviewers_general, suggestedReviewersOf]
    have hcl : (get_top_contributors g repo 5).contributors.length =
        min 5 (join_contributors g ("repo#" ++ repo)).length := by
      simp only [get_top_contributors, if_neg hedges]
      rw [List.length_take,
        (sortDescBy_perm (fun c : Contributor => c.contributions)
          (join_contributors g ("repo#" ++ repo))).length_eq]
    have hpos : 0 < (join_contributors g ("repo#" ++ repo)).length :=
      List.length_pos.mpr h
    intro hnil
    have hlen := congrArg List.length hnil
    rw [List.length_take, List.length_map, hcl, List.length_nil] at hlen
    omega
  · simp [handleFindReviewers]

/-- Witness for C7 amended on the sample graph with contributors. -/
theorem reviewers_fallback_empty_labels_witness :
    suggestedReviewersOf
      (find_reviewers noIssuesApi sampleGraph [] "acme/widgets") ≠ [] :=
  (reviewers_fallback_empty_labels noIssuesApi sampleGraph "acme/widgets"
    (by decide)).1

/-- C8 counterexample: find_reviewers consults the live GitHub issues API
when a label contains good first issue, so two invocations with identical
parameters and identical graph contents can return different results when
the external API state differs. -/
theorem find_reviewers_consults_github :
    find_reviewers noIssuesApi emptyGraph ["good first issue"]
        "acme/widgets" ≠
      find_reviewers sevenIssuesApi emptyGraph ["good first issue"]
        "acme/widgets" := by
  decide

/-- C8 amended: get_top_contributors and find_related_issues are functions
of the graph and parameters alone; find_reviewers is independent of the
GitHub API state whenever no requested label contains the lowercased
substring good first issue, but when one does it consults that API and is
not a pure function of the graph. -/
theorem find_reviewers_pure_without_gfi (g : Graph) (labels : List String)
    (repo : String) (gh1 gh2 : GitHubApi)
    (h : ∀ l ∈ labels,
      strContainsSub (strToLower l) "good first issue" = false) :
    find_reviewers gh1 g labels repo = find_reviewers gh2 g labels repo
    := by
  have hcond : ¬(labels ≠ [] ∧ labels.any
      (fun l => strContainsSub (strToLower l) "good first issue") = true) := by
    rintro ⟨-, hb⟩
    rcases List.any_eq_true.mp hb with ⟨l, hl, hp⟩
    rw [h l hl] at hp
    exact Bool.false_ne_true hp
  simp only [find_reviewers]
  rw [if_neg hcond, if_neg hcond]

/-- Witness for C8 amended: with a plain bug label the result is the same
under two different GitHub API states. -/
theorem find_reviewers_pure_without_gfi_witness :
    find_reviewers noIssuesApi sampleGraph ["bug"] "acme/widgets" =
      find_reviewers sevenIssuesApi sampleGraph ["bug"] "acme/widgets" :=
  find_reviewers_pure_without_gfi sampleGraph ["bug"] "acme/widgets"
    noIssuesApi sevenIssuesApi (by decide)

/-- C10: the per-label expertise tally examines only the first 20 incoming
HAS_LABEL edges (edges past 20 never change the tally), each label reports
at most 3 experts, and the overall suggested-reviewer list holds at most 5
entries. -/
theorem label_expertise_bounds :
    (∀ (g : Graph) (les ext : List EdgeItem), 20 ≤ les.length →
      countsFromLabelEdges g (les ++ ext) = countsFromLabelEdges g les) ∧
    (∀ (g : Graph) (repo label : String),
      (labelExpertsFor g repo label).length ≤ 3) ∧
    (∀ (gh : GitHubApi) (g : Graph) (labels : List String) (repo : String),
      (suggestedReviewersOf (find_reviewers gh g labels repo)).length ≤ 5)
    := by
  refine ⟨?_, ?_, ?_⟩
  · intro g les ext h
    simp only [countsFromLabelEdges]
    rw [List.take_append_of_le_length h]
  · intro g repo label
    simp only [labelExpertsFor]
    refine le_trans (List.length_filterMap_le _ _) ?_
    rw [List.length_take]
    exact min_le_left _ _
  · intro gh g labels repo
    unfold find_reviewers
    split
    · simp [find_reviewers_gfi, suggestedReviewersOf]
    · simp only [find_reviewers_general, suggestedReviewersOf]
      rw [List.length_take]
      exact min_le_left _ _

/-- Witness for C10: appending an extra edge after 20 leaves the tally
unchanged. -/
theorem label_expertise_bounds_witness :
    countsFromLabelEdges emptyGraph
        (List.replicate 20 sampleLabelEdge ++ [sampleLabelEdge]) =
      countsFromLabelEdges emptyGraph
        (List.replicate 20 sampleLabelEdge) :=
  label_expertise_bounds.1 emptyGraph (List.replicate 20 sampleLabelEdge)
    [sampleLabelEdge] (by simp)

end ContribConnect
